import Mathlib

/-!
Verification of the authentication/authorization middleware chain of the
Buyva backend (src/middlewares/authMiddleware.js, with a TypeScript
variant of the same middleware in the source tree).

The middleware is embedded shallowly: the two remote supabase calls
(identity verification and profile fetch) are modelled as oracle
functions supplied in an environment, each returning either a successful
value, an error result (the supabase `\x7bdata, error\x7d` shape with `error`
set or `data` empty, as produced e.g. by `.single()` on a missing row),
or a thrown exception (caught by the try/catch of the middleware).  The
middleware functions return a record carrying the response outcome, the
final request-augmentation state (`req.user`, `req.token`) and, for the
claims about network silence, which remote calls were invoked.
-/

namespace Buyva

/-- A row of the `profiles` table, as selected by the middleware
(`select("*")`).  Fields follow the `UserProfile` interface of the source. -/
structure Profile where
  id : String
  email : String
  username : String
  full_name : String
  avatar_url : String
  role : String
  created_at : String
  updated_at : String
  deriving DecidableEq

/-- The user object returned by `supabase.auth.getUser`; the middleware
only reads its `id` field. -/
structure AuthUser where
  id : String
  deriving DecidableEq

/-- Result of a remote supabase call: a successful value, an error result
(the call resolved but with `error` set or no data row), or a thrown
exception (network failure etc., caught by the try/catch of the middleware). -/
inductive CallResult (α : Type) where
  | success : α → CallResult α
  | failure : CallResult α
  | exc : CallResult α
  deriving DecidableEq

/-- The remote collaborators used by `protect`:
`getUser` is `supabase.auth.getUser(token)`,
`getProfile` is `supabase.from("profiles").select("*").eq("id", id).single()`. -/
structure AuthEnv where
  getUser : String → CallResult AuthUser
  getProfile : String → CallResult Profile

/-- Terminal outcome of a middleware invocation: a rejection response
`res.status(s).json(\x7bmessage\x7d)` or a call of `next()`. -/
inductive Outcome where
  | rejected : Nat → String → Outcome
  | next : Outcome
  deriving DecidableEq

/-- The JavaScript single-space split `str.split(" ")`, character by
character: every space character separates fields. -/
def jsSplitSpaceAux : List Char → List Char → List (List Char)
  | [], acc => [acc.reverse]
  | c :: rest, acc =>
      if c = ' ' then acc.reverse :: jsSplitSpaceAux rest []
      else jsSplitSpaceAux rest (c :: acc)

/-- `authHeader.split(" ")` of the source. -/
def jsSplitSpace (s : String) : List String :=
  (jsSplitSpaceAux s.toList []).map String.mk

/-- The guard `authHeader.startsWith("Bearer ")` of the source. -/
def hasBearerPrefix (h : String) : Bool :=
  List.isPrefixOf "Bearer ".toList h.toList

/-- The token extraction `authHeader.split(" ")[1]` of the source (on the
guarded path the header contains a space, so index 1 always exists). -/
def extractToken (h : String) : String :=
  (jsSplitSpace h).getD 1 ""

/-- Result of one `protect` invocation: the response outcome, whether each
remote call was made, and the final values of `req.user` and `req.token`
(both unset when the request arrives). -/
structure ProtectResult where
  outcome : Outcome
  verifyCalled : Bool
  profileCalled : Bool
  reqUser : Option Profile
  reqToken : Option String
  deriving DecidableEq

/-- The `protect` middleware of src/middlewares/authMiddleware.js:
reject 401 when the Authorization header is missing or lacks the
`Bearer ` prefix; verify the token remotely, rejecting 401 on an error
result; fetch the profile row by the verified id, rejecting 404 on an
error result; otherwise attach profile and token and call `next()`.
A thrown exception in either remote call lands in the catch block,
which responds 401 `Not authorized, authentication failed`. -/
def protect (env : AuthEnv) (authHeader : Option String) : ProtectResult :=
  match authHeader with
  | none =>
      ⟨.rejected 401 "Not authorized, no token provided", false, false, none, none⟩
  | some h =>
      if hasBearerPrefix h = false then
        ⟨.rejected 401 "Not authorized, no token provided", false, false, none, none⟩
      else
        match env.getUser (extractToken h) with
        | .exc =>
            ⟨.rejected 401 "Not authorized, authentication failed", true, false, none, none⟩
        | .failure =>
            ⟨.rejected 401 "Not authorized, invalid token", true, false, none, none⟩
        | .success u =>
            match env.getProfile u.id with
            | .exc =>
                ⟨.rejected 401 "Not authorized, authentication failed", true, true, none, none⟩
            | .failure =>
                ⟨.rejected 404 "User profile not found", true, true, none, none⟩
            | .success prof =>
                ⟨.next, true, true, some prof, some (extractToken h)⟩

/-- Result of one `authorize` invocation: the response outcome, whether
the role re-fetch was made, and the final value of `req.user`. -/
structure AuthorizeResult where
  outcome : Outcome
  fetchCalled : Bool
  reqUser : Option Profile
  deriving DecidableEq

/-- The `authorize(...roles)` middleware of
src/middlewares/authMiddleware.js: reject 401 when `req.user` is unset;
re-fetch the role for `req.user.id` from the profile store
(`select("role") ... .single()`), rejecting 404 on an error result;
overwrite `req.user.role` with the fetched value; reject 403 when the
declared role list is non-empty and does not contain the fetched role;
otherwise call `next()`.  A thrown exception lands in the catch block,
which responds 500 `Server error during authorization`. -/
def authorize (roles : List String) (fetchRole : String → CallResult String)
    (reqUser : Option Profile) : AuthorizeResult :=
  match reqUser with
  | none => ⟨.rejected 401 "Not authenticated", false, none⟩
  | some p =>
      match fetchRole p.id with
      | .exc => ⟨.rejected 500 "Server error during authorization", true, some p⟩
      | .failure => ⟨.rejected 404 "User not found", true, some p⟩
      | .success r =>
          if roles.length ≠ 0 ∧ r ∉ roles then
            ⟨.rejected 403 "Not authorized to access this resource", true,
              some { p with role := r }⟩
          else
            ⟨.next, true, some { p with role := r }⟩

/-- The `isOwner(resourceUserId)` middleware of
src/middlewares/authMiddleware.js: reject 403 unless the id of the attached user
equals the resource owner id or the role of the attached user is admin.
(The JavaScript version dereferences `req.user` unconditionally, so it is
modelled on requests that carry a user.) -/
def isOwner (resourceUserId : String) (user : Profile) : Outcome :=
  if user.id ≠ resourceUserId ∧ user.role ≠ "admin" then
    .rejected 403 "Not authorized to access this resource"
  else
    .next

/-- The TypeScript variant of `isOwner` (src/unnamed/part_006): the 403
branch additionally requires `req.user` to be present, so a request with
no attached user falls through to `next()`. -/
def isOwnerTs (resourceUserId : String) (user : Option Profile) : Outcome :=
  match user with
  | none => .next
  | some u =>
      if u.id ≠ resourceUserId ∧ u.role ≠ "admin" then
        .rejected 403 "Not authorized to access this resource"
      else
        .next

/-! Concrete fixtures used to instantiate the theorems below. -/

/-- An environment whose identity collaborator reports every token
invalid or expired (an error result, not an exception). -/
def envInvalidToken : AuthEnv := ⟨fun _ => .failure, fun _ => .failure⟩

/-- An environment whose remote calls all throw. -/
def envExc : AuthEnv := ⟨fun _ => .exc, fun _ => .exc⟩

/-- A sample profile row. -/
def pAlice : Profile :=
  ⟨"alice-id", "alice@example.com", "alice", "Alice", "", "customer", "", ""⟩

/-- A second sample profile row with a different id and the admin role. -/
def pBob : Profile :=
  ⟨"bob-id", "bob@example.com", "bob", "Bob", "", "admin", "", ""⟩

/-- The verified identity matching `pAlice`. -/
def uAlice : AuthUser := ⟨"alice-id"⟩

/-- An environment where verification succeeds and the profile row exists. -/
def envAlice : AuthEnv := ⟨fun _ => .success uAlice, fun _ => .success pAlice⟩

/-- An environment where verification succeeds but no profile row exists. -/
def envNoProfile : AuthEnv := ⟨fun _ => .success uAlice, fun _ => .failure⟩

/-- A profile store whose role re-fetch always returns `customer`. -/
def fetchCustomer : String → CallResult String := fun _ => .success "customer"

/-- A profile store whose role re-fetch always fails with an error result. -/
def fetchMissing : String → CallResult String := fun _ => .failure

/-- A profile store whose role re-fetch always throws. -/
def fetchThrows : String → CallResult String := fun _ => .exc

/-! Helper lemma: the `startsWith("Bearer ")` guard of the source holds
exactly on headers of the form `Bearer ` followed by a token string. -/

/-- `hasBearerPrefix` recognises exactly the strings `"Bearer " ++ t`. -/
theorem hasBearerPrefix_iff (h : String) :
    hasBearerPrefix h = true ↔ ∃ t : String, h = "Bearer " ++ t := by
  unfold hasBearerPrefix
  rw [List.isPrefixOf_iff_prefix]
  constructor
  · rintro ⟨t, ht⟩
    refine ⟨String.mk t, ?_⟩
    cases h with
    | mk l =>
      have h2 : "Bearer ".toList ++ t = l := ht
      simp [String.toList] at h2
      rw [← h2]
      rfl
  · rintro ⟨t, rfl⟩
    exact ⟨t.data, rfl⟩

/-- A header carrying the Bearer prefix reduces `protect` to the remote
verification step; stated once and shared by the claim proofs below. -/
theorem protect_some_bearer (env : AuthEnv) (h : String)
    (hb : hasBearerPrefix h = true) :
    protect env (some h) =
      match env.getUser (extractToken h) with
      | .exc =>
          ⟨.rejected 401 "Not authorized, authentication failed", true, false, none, none⟩
      | .failure =>
          ⟨.rejected 401 "Not authorized, invalid token", true, false, none, none⟩
      | .success u =>
          match env.getProfile u.id with
          | .exc =>
              ⟨.rejected 401 "Not authorized, authentication failed", true, true, none, none⟩
          | .failure =>
              ⟨.rejected 404 "User profile not found", true, true, none, none⟩
          | .success prof =>
              ⟨.next, true, true, some prof, some (extractToken h)⟩ := by
  simp [protect, hb]

/-- On a successful role re-fetch, `authorize` reduces to the role-list
membership test, with the context role overwritten by the fetched value. -/
theorem authorize_success_eq (roles : List String)
    (fetchRole : String → CallResult String) (p : Profile) (r : String)
    (hr : fetchRole p.id = .success r) :
    authorize roles fetchRole (some p) =
      if roles.length ≠ 0 ∧ r ∉ roles then
        ⟨.rejected 403 "Not authorized to access this resource", true,
          some { p with role := r }⟩
      else
        ⟨.next, true, some { p with role := r }⟩ := by
  simp [authorize, hr]

/-- C1 counterexample: with an identity collaborator that reports the
token invalid, the rejection of `protect` differs observably (in the
response body) from the rejection of a request with no credential, so the
two failures are externally distinguishable. -/
theorem protect_invalid_token_message_leaks :
    envInvalidToken.getUser (extractToken "Bearer sometoken") = .failure ∧
    (protect envInvalidToken (some "Bearer sometoken")).outcome ≠
      (protect envInvalidToken none).outcome := by
  decide

/-- C1 (amended): for every token that the identity collaborator reports
invalid or expired, `protect` rejects with the same outward status 401 as
the no-credential rejection, but the response messages differ
(`Not authorized, invalid token` versus `Not authorized, no token
provided`), so the bodies reveal which stage failed. -/
theorem protect_invalid_token_same_status (env : AuthEnv) (h : String)
    (hb : hasBearerPrefix h = true)
    (hg : env.getUser (extractToken h) = .failure) :
    (protect env (some h)).outcome = .rejected 401 "Not authorized, invalid token" ∧
    (protect env none).outcome = .rejected 401 "Not authorized, no token provided" := by
  rw [protect_some_bearer env h hb, hg]
  exact ⟨rfl, rfl⟩

/-- C1 witness. -/
theorem protect_invalid_token_same_status_witness :
    hasBearerPrefix "Bearer sometoken" = true ∧
    envInvalidToken.getUser (extractToken "Bearer sometoken") = .failure ∧
    (protect envInvalidToken (some "Bearer sometoken")).outcome =
      .rejected 401 "Not authorized, invalid token" ∧
    (protect envInvalidToken none).outcome =
      .rejected 401 "Not authorized, no token provided" := by
  refine ⟨by decide, by decide, ?_⟩
  exact protect_invalid_token_same_status envInvalidToken "Bearer sometoken"
    (by decide) (by decide)

/-- C2: for every request whose Authorization header is absent or does
not have the form `Bearer ` followed by a token, `protect` rejects with
status 401 and makes neither the identity-verification call nor the
profile fetch. -/
theorem protect_no_credential_no_remote_call (env : AuthEnv)
    (h : Option String)
    (hno : h = none ∨ ∀ t : String, h ≠ some ("Bearer " ++ t)) :
    (protect env h).outcome = .rejected 401 "Not authorized, no token provided" ∧
    (protect env h).verifyCalled = false ∧
    (protect env h).profileCalled = false := by
  cases h with
  | none => exact ⟨rfl, rfl, rfl⟩
  | some s =>
    have hs : ∀ t : String, s ≠ "Bearer " ++ t := by
      rcases hno with hno | hno
      · exact absurd hno (by simp)
      · intro t ht
        exact hno t (by rw [ht])
    have hb : hasBearerPrefix s = false := by
      cases hbv : hasBearerPrefix s with
      | false => rfl
      | true =>
        rcases (hasBearerPrefix_iff s).mp hbv with ⟨t, ht⟩
        exact absurd ht (hs t)
    simp [protect, hb]

/-- C2 witness. -/
theorem protect_no_credential_no_remote_call_witness :
    (protect envAlice none).outcome = .rejected 401 "Not authorized, no token provided" ∧
    (protect envAlice none).verifyCalled = false ∧
    (protect envAlice none).profileCalled = false :=
  protect_no_credential_no_remote_call envAlice none (Or.inl rfl)

/-- C3: when `authorize` runs with an identity in the context, a failed
or empty role re-fetch yields a 404 rejection; on a successful re-fetch
returning role `r`, the request is rejected 403 exactly when the declared
role list is non-empty and `r` is not a member, and otherwise `next` is
invoked — in particular an empty role list admits every role. -/
theorem authorize_role_gate (roles : List String)
    (fetchRole : String → CallResult String) (p : Profile) :
    (fetchRole p.id = .failure →
      (authorize roles fetchRole (some p)).outcome = .rejected 404 "User not found") ∧
    (∀ r : String, fetchRole p.id = .success r →
      ((authorize roles fetchRole (some p)).outcome =
          .rejected 403 "Not authorized to access this resource" ↔
        roles ≠ [] ∧ r ∉ roles) ∧
      ((roles = [] ∨ r ∈ roles) →
        (authorize roles fetchRole (some p)).outcome = .next)) := by
  constructor
  · intro hf
    simp [authorize, hf]
  · intro r hr
    rw [authorize_success_eq roles fetchRole p r hr]
    by_cases hc : roles.length ≠ 0 ∧ r ∉ roles
    · rw [if_pos hc]
      constructor
      · constructor
        · intro _
          exact ⟨by simpa [← List.length_eq_zero] using hc.1, hc.2⟩
        · intro _
          rfl
      · intro hadm
        rcases hadm with hadm | hadm
        · exact absurd (by simp [hadm]) hc.1
        · exact absurd hadm hc.2
    · rw [if_neg hc]
      constructor
      · constructor
        · intro hco
          exact absurd hco (by simp)
        · intro hmem
          exact absurd ⟨by simpa [← List.length_eq_zero] using hmem.1, hmem.2⟩ hc
      · intro _
        rfl

/-- C3 witness. -/
theorem authorize_role_gate_witness :
    fetchCustomer pAlice.id = .success "customer" ∧
    (authorize ["admin"] fetchCustomer (some pAlice)).outcome =
      .rejected 403 "Not authorized to access this resource" ∧
    (authorize [] fetchCustomer (some pAlice)).outcome = .next := by
  refine ⟨rfl, ?_, ?_⟩
  · exact ((authorize_role_gate ["admin"] fetchCustomer pAlice).2 "customer" rfl).1.mpr
      ⟨by decide, by decide⟩
  · exact ((authorize_role_gate [] fetchCustomer pAlice).2 "customer" rfl).2 (Or.inl rfl)

/-- C4: the admit/deny decision of `authorize` is unchanged when only the
role cached in the context differs (the re-fetch is keyed by the
identity id, which is identical), and on a successful re-fetch the
context role is overwritten with the freshly fetched value. -/
theorem authorize_fresh_role_decides (roles : List String)
    (fetchRole : String → CallResult String) (p : Profile) (r2 : String) :
    (authorize roles fetchRole (some { p with role := r2 })).outcome =
      (authorize roles fetchRole (some p)).outcome ∧
    (∀ r : String, fetchRole p.id = .success r →
      (authorize roles fetchRole (some p)).reqUser = some { p with role := r }) := by
  constructor
  · cases hfr : fetchRole p.id with
    | exc => simp [authorize, hfr]
    | failure => simp [authorize, hfr]
    | success r =>
      rw [authorize_success_eq roles fetchRole p r hfr,
        authorize_success_eq roles fetchRole { p with role := r2 } r hfr]
  · intro r hr
    rw [authorize_success_eq roles fetchRole p r hr]
    by_cases hc : roles.length ≠ 0 ∧ r ∉ roles
    · rw [if_pos hc]
    · rw [if_neg hc]

/-- C4 witness. -/
theorem authorize_fresh_role_decides_witness :
    (authorize ["admin"] fetchCustomer (some { pAlice with role := "admin" })).outcome =
      (authorize ["admin"] fetchCustomer (some pAlice)).outcome ∧
    (authorize ["admin"] fetchCustomer (some pAlice)).reqUser =
      some { pAlice with role := "customer" } := by
  refine ⟨?_, ?_⟩
  · exact (authorize_fresh_role_decides ["admin"] fetchCustomer pAlice "admin").1
  · exact (authorize_fresh_role_decides ["admin"] fetchCustomer pAlice "admin").2
      "customer" rfl

/-- C5: a valid token whose verified identity has no profile row is
rejected by `protect` with status 404 and message
`User profile not found`, an outcome distinct from every 401 rejection
used for missing or invalid credentials. -/
theorem protect_profile_not_found (env : AuthEnv) (h : String) (u : AuthUser)
    (hb : hasBearerPrefix h = true)
    (hg : env.getUser (extractToken h) = .success u)
    (hp : env.getProfile u.id = .failure) :
    (protect env (some h)).outcome = .rejected 404 "User profile not found" ∧
    (∀ m : String, (protect env (some h)).outcome ≠ .rejected 401 m) := by
  have h1 : (protect env (some h)).outcome = .rejected 404 "User profile not found" := by
    simp [protect, hb, hg, hp]
  refine ⟨h1, ?_⟩
  intro m hco
  rw [h1] at hco
  simp at hco

/-- C5 witness. -/
theorem protect_profile_not_found_witness :
    hasBearerPrefix "Bearer sometoken" = true ∧
    envNoProfile.getUser (extractToken "Bearer sometoken") = .success uAlice ∧
    envNoProfile.getProfile uAlice.id = .failure ∧
    (protect envNoProfile (some "Bearer sometoken")).outcome =
      .rejected 404 "User profile not found" := by
  refine ⟨by decide, by decide, by decide, ?_⟩
  exact (protect_profile_not_found envNoProfile "Bearer sometoken" uAlice
    (by decide) (by decide) (by decide)).1

/-- C6: invoked on a request with no attached user, `authorize` rejects
with status 401 (distinct from the 403 role-mismatch rejection) and makes
no profile-store fetch. -/
theorem authorize_no_identity (roles : List String)
    (fetchRole : String → CallResult String) :
    (authorize roles fetchRole none).outcome = .rejected 401 "Not authenticated" ∧
    (authorize roles fetchRole none).fetchCalled = false ∧
    (∀ m : String, (authorize roles fetchRole none).outcome ≠ .rejected 403 m) := by
  refine ⟨rfl, rfl, ?_⟩
  intro m hco
  simp [authorize] at hco

/-- C6 witness. -/
theorem authorize_no_identity_witness :
    (authorize ["admin"] fetchCustomer none).outcome = .rejected 401 "Not authenticated" ∧
    (authorize ["admin"] fetchCustomer none).fetchCalled = false ∧
    (authorize ["admin"] fetchCustomer none).outcome ≠
      .rejected 403 "Not authorized to access this resource" := by
  refine ⟨?_, ?_, ?_⟩
  · exact (authorize_no_identity ["admin"] fetchCustomer).1
  · exact (authorize_no_identity ["admin"] fetchCustomer).2.1
  · exact (authorize_no_identity ["admin"] fetchCustomer).2.2
      "Not authorized to access this resource"

/-- C7: on every rejecting path of `protect` the request augmentation
stays unset (`req.user` and `req.token` both remain `none`), and on the
admitting path both are set together before `next` is invoked. -/
theorem protect_all_or_nothing_state (env : AuthEnv) (h : Option String) :
    ((protect env h).outcome ≠ .next →
      (protect env h).reqUser = none ∧ (protect env h).reqToken = none) ∧
    ((protect env h).outcome = .next →
      (∃ p : Profile, (protect env h).reqUser = some p) ∧
      (∃ t : String, (protect env h).reqToken = some t)) := by
  cases h with
  | none => simp [protect]
  | some s =>
    cases hb : hasBearerPrefix s with
    | false => simp [protect, hb]
    | true =>
      cases hg : env.getUser (extractToken s) with
      | exc => simp [protect, hb, hg]
      | failure => simp [protect, hb, hg]
      | success u =>
        cases hp : env.getProfile u.id with
        | exc => simp [protect, hb, hg, hp]
        | failure => simp [protect, hb, hg, hp]
        | success prof => simp [protect, hb, hg, hp]

/-- C7 witness. -/
theorem protect_all_or_nothing_state_witness :
    ((protect envAlice (some "Bearer sometoken")).outcome = .next →
      (∃ p : Profile, (protect envAlice (some "Bearer sometoken")).reqUser = some p) ∧
      (∃ t : String, (protect envAlice (some "Bearer sometoken")).reqToken = some t)) ∧
    (∃ p : Profile, (protect envAlice (some "Bearer sometoken")).reqUser = some p) ∧
    (∃ t : String, (protect envAlice (some "Bearer sometoken")).reqToken = some t) ∧
    (protect envInvalidToken (some "Bearer sometoken")).reqUser = none ∧
    (protect envInvalidToken (some "Bearer sometoken")).reqToken = none := by
  have hsucc := (protect_all_or_nothing_state envAlice (some "Bearer sometoken")).2
    (by decide)
  have hfail := (protect_all_or_nothing_state envInvalidToken
    (some "Bearer sometoken")).1 (by decide)
  exact ⟨(protect_all_or_nothing_state envAlice (some "Bearer sometoken")).2,
    hsucc.1, hsucc.2, hfail.1, hfail.2⟩

/-- C8: `isOwner` admits exactly when the id of the attached user equals
the supplied resource-owner id or the role of the attached user is
`admin`, and rejects with status 403 in every other case; it consumes no
remote environment, reading only the already-resolved context data. -/
theorem isOwner_admits_iff (rid : String) (u : Profile) :
    (isOwner rid u = .next ↔ (u.id = rid ∨ u.role = "admin")) ∧
    (¬(u.id = rid ∨ u.role = "admin") →
      isOwner rid u = .rejected 403 "Not authorized to access this resource") := by
  constructor
  · by_cases hc : u.id ≠ rid ∧ u.role ≠ "admin"
    · rw [isOwner, if_pos hc]
      simp [hc.1, hc.2]
    · rw [isOwner, if_neg hc]
      simp
      rcases not_and_or.mp hc with hc | hc
      · exact Or.inl (not_not.mp hc)
      · exact Or.inr (not_not.mp hc)
  · intro hc
    rw [isOwner, if_pos ⟨fun he => hc (Or.inl he), fun he => hc (Or.inr he)⟩]

/-- C8 witness. -/
theorem isOwner_admits_iff_witness :
    isOwner "alice-id" pAlice = .next ∧
    isOwner "alice-id" pBob = .next ∧
    isOwner "bob-id" pAlice = .rejected 403 "Not authorized to access this resource" := by
  refine ⟨?_, ?_, ?_⟩
  · exact (isOwner_admits_iff "alice-id" pAlice).1.mpr (Or.inl rfl)
  · exact (isOwner_admits_iff "alice-id" pBob).1.mpr (Or.inr rfl)
  · exact (isOwner_admits_iff "bob-id" pAlice).2 (by decide)

/-- C9: the TypeScript variant of the ownership check invokes `next` on a
request that carries no user, and its 403 branch is reachable only when a
user is attached. -/
theorem isOwnerTs_no_user_admits (rid : String) :
    isOwnerTs rid none = .next ∧
    (∀ (u : Option Profile) (s : Nat) (m : String),
      isOwnerTs rid u = .rejected s m → u ≠ none) := by
  refine ⟨rfl, ?_⟩
  intro u s m hco
  cases u with
  | none => simp [isOwnerTs] at hco
  | some p => simp

/-- C9 witness. -/
theorem isOwnerTs_no_user_admits_witness :
    isOwnerTs "bob-id" none = .next ∧
    isOwnerTs "bob-id" (some pAlice) =
      .rejected 403 "Not authorized to access this resource" ∧
    (some pAlice ≠ (none : Option Profile)) := by
  refine ⟨(isOwnerTs_no_user_admits "bob-id").1, by decide, ?_⟩
  exact (isOwnerTs_no_user_admits "bob-id").2 (some pAlice) 403
    "Not authorized to access this resource" (by decide)

/-- C10 counterexample: when the identity-verification call throws, the
rejection of `protect` carries status 401, not the status 500 the claim
asserts for unexpected collaborator failures. -/
theorem protect_exc_status_not_500 :
    envExc.getUser (extractToken "Bearer sometoken") = .exc ∧
    (protect envExc (some "Bearer sometoken")).outcome =
      .rejected 401 "Not authorized, authentication failed" ∧
    (401 : Nat) ≠ 500 := by
  decide

/-- C10 (amended): every execution in which a remote collaborator call
throws fails closed with a structured rejection rather than a crash: the
catch of `protect` rejects with status 401
(`Not authorized, authentication failed`), and the catch of `authorize`
rejects with status 500 (`Server error during authorization`). -/
theorem middleware_exc_fails_closed (env : AuthEnv) (h : String)
    (roles : List String) (fetchRole : String → CallResult String) (p : Profile)
    (hb : hasBearerPrefix h = true) :
    (env.getUser (extractToken h) = .exc →
      (protect env (some h)).outcome =
        .rejected 401 "Not authorized, authentication failed") ∧
    (∀ u : AuthUser, env.getUser (extractToken h) = .success u →
      env.getProfile u.id = .exc →
      (protect env (some h)).outcome =
        .rejected 401 "Not authorized, authentication failed") ∧
    (fetchRole p.id = .exc →
      (authorize roles fetchRole (some p)).outcome =
        .rejected 500 "Server error during authorization") := by
  refine ⟨?_, ?_, ?_⟩
  · intro hg
    simp [protect, hb, hg]
  · intro u hg hp
    simp [protect, hb, hg, hp]
  · intro hf
    simp [authorize, hf]

/-- C10 witness. -/
theorem middleware_exc_fails_closed_witness :
    hasBearerPrefix "Bearer sometoken" = true ∧
    envExc.getUser (extractToken "Bearer sometoken") = .exc ∧
    fetchThrows pAlice.id = .exc ∧
    (protect envExc (some "Bearer sometoken")).outcome =
      .rejected 401 "Not authorized, authentication failed" ∧
    (authorize ["admin"] fetchThrows (some pAlice)).outcome =
      .rejected 500 "Server error during authorization" := by
  refine ⟨by decide, by decide, rfl, ?_, ?_⟩
  · exact (middleware_exc_fails_closed envExc "Bearer sometoken" ["admin"]
      fetchThrows pAlice (by decide)).1 (by decide)
  · exact (middleware_exc_fails_closed envExc "Bearer sometoken" ["admin"]
      fetchThrows pAlice (by decide)).2.2 rfl

end Buyva
